import Mathlib

/-!
Verification of the daily rebus-puzzle generation pipeline.

This file gives a shallow embedding, in Lean, of the Go backend of the
playRebus repository: the puzzle data model, the transactional batch write
(`database.go` DB.SavePuzzles), the existence check (DB.HasPuzzlesForDate and
the Store wrapper), the prompt cache (ai.PromptGenerator.GetPromptsFromClaude),
the prompt-shape validation, the Replicate polling loop
(ai.ImageGenerator.pollPrediction) with its output-shape extraction
(extractImageURL), the batch generator (ai.RealAIGenerator.GenerateRebusPuzzles)
and the scheduler entry points (Scheduler.Start / checkAndRunIfNeeded /
generatePuzzlesForToday / TriggerTodayGeneration from scheduler.go).

External effects (Claude HTTP call, Replicate HTTP calls, image uploads, SQL
execution) are modelled by oracles carried in an environment record: each
oracle value is the outcome the external world returns for the corresponding
call.  The SQL transaction in SavePuzzles is modelled with its standard
semantics: uncommitted work is never visible, so any error inside the
transaction leaves the stored rows unchanged (the code's Begin / defer
Rollback / Commit discipline).
-/

namespace PlayRebus

/-- models.Puzzle (backend/internal/models/puzzle.go).  `index` is the 0-based
position inside a date's batch; the Go `int` is modelled as `Nat` (indices are
always 0..4 in this code). -/
structure Puzzle where
  id : String
  imageURL : String
  imagePath : String
  answer : String
  hint : String
  date : String
  index : Nat
deriving Repr, DecidableEq

/-- Which step of DB.SavePuzzles the database backend fails at, if any.
`insertFault i` means the insert of the i-th supplied record errors. -/
inductive SaveFault where
  | beginFault
  | deleteFault
  | prepareFault
  | insertFault (i : Nat)
  | commitFault
deriving Repr, DecidableEq

/-- DB.SavePuzzles (database.go:128-174): inside one transaction, delete all
rows of `date`, then insert every supplied record, then commit.  The stored
rows are the durable table contents; by transaction semantics a failure at any
step rolls back (the deferred tx.Rollback), leaving the stored rows unchanged,
and only a successful Commit publishes the delete-then-insert result.
`fault` is the oracle for which step (if any) the database errors at; an
`insertFault i` with `i` beyond the supplied records never fires. -/
def dbSavePuzzles (fault : Option SaveFault) (rows : List Puzzle) (date : String)
    (puzzles : List Puzzle) : List Puzzle × Option String :=
  match fault with
  | some .beginFault => (rows, some "failed to begin transaction")
  | some .deleteFault => (rows, some "failed to delete existing puzzles")
  | some .prepareFault => (rows, some "failed to prepare statement")
  | some (.insertFault i) =>
    match puzzles[i]? with
    | some p => (rows, some ("failed to insert puzzle " ++ p.id))
    | none => ((rows.filter fun p => p.date != date) ++ puzzles, none)
  | some .commitFault => (rows, some "failed to commit transaction")
  | none => ((rows.filter fun p => p.date != date) ++ puzzles, none)

/-- DB.HasPuzzlesForDate (database.go:177-185): SELECT COUNT(*) for the date;
on a query error it returns (false, err), modelled as `.error`; otherwise
(count > 0, nil).  `queryFault` is the oracle for the query erroring. -/
def dbHasPuzzlesForDate (queryFault : Option String) (rows : List Puzzle)
    (date : String) : Except String Bool :=
  match queryFault with
  | some e => .error ("failed to check puzzles: " ++ e)
  | none =>
    let count := (rows.filter fun p => p.date == date).length
    .ok (decide (0 < count))

/-- Store.HasPuzzlesForDate (store.go): calls the DB check and collapses any
error to `false`. -/
def storeHasPuzzlesForDate (queryFault : Option String) (rows : List Puzzle)
    (date : String) : Bool :=
  match dbHasPuzzlesForDate queryFault rows date with
  | .error _ => false
  | .ok exists_ => exists_

/-- ai.RebusPrompt (generator.go): one generation unit returned by the prompt
service. -/
structure RebusPrompt where
  prompt : String
  answer : String
  hint : String
deriving Repr, DecidableEq

/-- One element of the JSON array found in the prompt service's reply, before
Go's json.Unmarshal decodes it into a RebusPrompt.  A `none` field is a field
absent from the JSON object. -/
structure RawPromptObj where
  prompt : Option String
  answer : Option String
  hint : Option String
deriving Repr, DecidableEq

/-- Go's json.Unmarshal of one array element into ai.RebusPrompt: an absent
field is left at the string zero value "" and produces no error. -/
def decodeRebusPrompt (o : RawPromptObj) : RebusPrompt :=
  { prompt := o.prompt.getD "", answer := o.answer.getD "", hint := o.hint.getD "" }

/-- The parse-and-validate step of PromptGenerator.GetPromptsFromClaude
(generator.go): unmarshal the extracted JSON array into []RebusPrompt and fail
unless exactly 5 prompts were obtained.  This is the only shape validation the
code performs after a successful unmarshal. -/
def validatePrompts (objs : List RawPromptObj) : Except String (List RebusPrompt) :=
  let prompts := objs.map decodeRebusPrompt
  if prompts.length ≠ 5 then
    .error ("expected 5 prompts, got " ++ toString prompts.length)
  else
    .ok prompts

/-- The process-lifetime prompt cache (ai.PromptGenerator.promptCache): a map
from date to the cached prompt sequence, modelled as an association list where
an insert conses the new binding. -/
abbrev PromptCache : Type := List (String × List RebusPrompt)

/-- Go map lookup promptCache[date]. -/
def cacheLookup : PromptCache → String → Option (List RebusPrompt)
  | [], _ => none
  | (d, ps) :: rest, key => if d = key then some ps else cacheLookup rest key

/-- PromptGenerator.GetPromptsFromClaude (generator.go): on a cache hit return
the cached sequence with no external call; on a miss issue one Claude request
(oracle `svc`, whose error case covers transport, HTTP-status, response-decode
and JSON-array-extraction failures, and whose ok case carries the parsed JSON
array), validate the shape, and cache the result under the date on success.
Returns the new cache, the result, and how many external requests were issued. -/
def getPromptsFromClaude (cache : PromptCache) (date : String)
    (svc : Except String (List RawPromptObj)) :
    PromptCache × Except String (List RebusPrompt) × Nat :=
  match cacheLookup cache date with
  | some prompts => (cache, .ok prompts, 0)
  | none =>
    match svc with
    | .error e => (cache, .error e, 1)
    | .ok objs =>
      match validatePrompts objs with
      | .error e => (cache, .error e, 1)
      | .ok prompts => ((date, prompts) :: cache, .ok prompts, 1)

/-- A JSON value, as far as the Replicate prediction output field needs:
the output is polymorphic (string, array, null, or other scalars). -/
inductive JVal where
  | null
  | boolean (b : Bool)
  | num (n : Int)
  | str (s : String)
  | arr (elems : List JVal)

/-- Go json.Unmarshal of a JSON value into a string variable: a JSON string
decodes to itself; JSON null leaves the variable at its zero value "" with no
error; every other value errors. -/
def unmarshalString : JVal → Option String
  | .str s => some s
  | .null => some ""
  | _ => none

/-- Element-wise decoding of a JSON array into []string, failing if any
element is not decodable as a string. -/
def unmarshalStringList : List JVal → Option (List String)
  | [] => some []
  | v :: rest =>
    match unmarshalString v with
    | none => none
    | some s =>
      match unmarshalStringList rest with
      | none => none
      | some ss => some (s :: ss)

/-- Go json.Unmarshal into []string: arrays decode element-wise, JSON null
leaves the nil slice (length 0) with no error, anything else errors. -/
def unmarshalStringArray : JVal → Option (List String)
  | .arr xs => unmarshalStringList xs
  | .null => some []
  | _ => none

/-- Go json.Unmarshal into []interface: arrays decode as themselves, JSON
null leaves the nil slice with no error, anything else errors. -/
def unmarshalAnyArray : JVal → Option (List JVal)
  | .arr xs => some xs
  | .null => some []
  | _ => none

/-- ImageGenerator.extractImageURL: `outputRaw` is the raw output field;
`none` models an empty RawMessage (field absent).  The code tries to decode
the output as a string, then as an array of strings, then as an array of
arbitrary values, in that order, returning the first non-empty string found
(the first element for arrays); if nothing matches it errors.  The source
appends the raw output text to the final error message; the message is
modelled without that suffix. -/
def extractImageURL (outputRaw : Option JVal) : Except String String :=
  match outputRaw with
  | none => .error "output is empty"
  | some v =>
    let first :=
      match unmarshalString v with
      | some s => if s = "" then none else some s
      | none => none
    match first with
    | some s => .ok s
    | none =>
      let second :=
        match unmarshalStringArray v with
        | some (x :: _) => if x = "" then none else some x
        | _ => none
      match second with
      | some s => .ok s
      | none =>
        let third :=
          match unmarshalAnyArray v with
          | some (x :: _) =>
            match x with
            | .str u => if u = "" then none else some u
            | _ => none
          | _ => none
        match third with
        | some s => .ok s
        | none => .error "could not extract image URL from output"

/-- One Replicate poll response (the decoded ReplicatePrediction of one
get-prediction call): its status, its raw output field and its optional error
message. -/
structure PredictionResp where
  status : String
  output : Option JVal
  errMsg : Option String

/-- A status on which pollPrediction keeps polling ("starting" or
"processing" in the code's switch). -/
def isContinueStatus (s : String) : Prop :=
  s = "starting" ∨ s = "processing"

instance (s : String) : Decidable (isContinueStatus s) := by
  unfold isContinueStatus
  infer_instance

/-- The loop body of ImageGenerator.pollPrediction, recursing on the number
of attempts left out of the 60 allowed.  `r` is the oracle giving the decoded
response of each poll (transport and decode errors of the poll request itself
are outside this claim's scope and not injected); `slept` accumulates the
5-second sleeps taken so far.  Terminal statuses return a result or error
from the attempt they arrive on; "starting"/"processing" sleep 5 units and
retry; an unrecognized status errors immediately; running out of attempts
yields the timeout error. -/
def pollPredictionAux (r : Nat → PredictionResp) :
    Nat → Nat → Nat → Nat × Except String String
  | 0, _, slept => (slept, .error "prediction timed out after 60 attempts")
  | fuel + 1, attempt, slept =>
    let resp := r attempt
    if resp.status = "succeeded" then
      match extractImageURL resp.output with
      | .ok url => (slept, .ok url)
      | .error e =>
        (slept, .error ("prediction succeeded but failed to extract image URL: " ++ e))
    else if resp.status = "failed" then
      (slept, .error ("prediction failed: " ++ resp.errMsg.getD "unknown error"))
    else if resp.status = "canceled" then
      (slept, .error "prediction was canceled")
    else if isContinueStatus resp.status then
      pollPredictionAux r fuel (attempt + 1) (slept + 5)
    else
      (slept, .error ("unknown prediction status: " ++ resp.status))

/-- ImageGenerator.pollPrediction: poll from attempt 0 with maxAttempts 60 and
no sleep taken yet.  Returns the total units slept and the result. -/
def pollPrediction (r : Nat → PredictionResp) : Nat × Except String String :=
  pollPredictionAux r 60 0 0

/-- A poll oracle that always reports "processing". -/
def alwaysProcessing : Nat → PredictionResp :=
  fun _ => { status := "processing", output := none, errMsg := none }

/-- A poll oracle that always reports "submitted" (a status the code's switch
does not recognize). -/
def alwaysSubmitted : Nat → PredictionResp :=
  fun _ => { status := "submitted", output := none, errMsg := none }

/-- Boolean success test for an Except result. -/
def exceptOk {α : Type} : Except String α → Bool
  | .ok _ => true
  | .error _ => false

/-- A well-formed prompt-service reply: five objects, all fields present. -/
def goodPromptObjs : List RawPromptObj :=
  [⟨some "a sun rising over a flower", some "Sunshine ", some "look up"⟩,
   ⟨some "an ice cube cracking", some "break the ice", some "a cold start"⟩,
   ⟨some "a slice of cake", some "piece of cake", some "it is easy"⟩,
   ⟨some "a clock with wings", some "time flies", some "tick tock"⟩,
   ⟨some "a house with a heart", some "home sweet home", some "cozy"⟩]

/-- The mutable state shared by the scheduler, the store and the generator in
one process: the durable puzzle rows (the puzzles table), the process-lifetime
prompt cache, and the image byte store (an image saved at (date, index) with
its bytes; saving is not transactional with the puzzle rows). -/
structure SystemState where
  rows : List Puzzle
  promptCache : PromptCache
  images : List (String × Nat × Nat)
deriving DecidableEq

/-- The environment of one production run: the date GetTodayDate returns, the
wall clock (minutes since local midnight, for now.After(scheduledTime) at the
minute granularity the configuration uses), the configured hour and minute,
and the oracles for the external calls: the Claude prompt request, the image
render for each position (GenerateImageFromPrompt is called sequentially for
positions 0..4, so the oracle is indexed by position; bytes are abstracted to
a Nat), the image upload for each position, and the database write fault. -/
structure Env where
  today : String
  nowMinutes : Nat
  hour : Nat
  minute : Nat
  claudeResult : Except String (List RawPromptObj)
  imageGen : Nat → Except String Nat
  imageSave : Nat → Option String
  saveFault : Option SaveFault

/-- Store.HasPuzzlesForDate as the scheduler sees it, with the database query
succeeding (query faults are studied separately in the C10 definitions). -/
def storeHas (st : SystemState) (date : String) : Bool :=
  storeHasPuzzlesForDate none st.rows date

/-- The puzzle record built at one loop position of
RealAIGenerator.GenerateRebusPuzzles (generator code in internal/ai): id is
"{date}-{index}", the image URL and path are the Store's non-Supabase
locators, and the answer is lower-cased and whitespace-trimmed. -/
def mkPuzzle (date : String) (i : Nat) (p : RebusPrompt) : Puzzle :=
  { id := date ++ "-" ++ toString i
  , imageURL := "/api/images/" ++ date ++ "-" ++ toString i ++ ".png"
  , imagePath := "./storage/images/" ++ date ++ "-" ++ toString i ++ ".png"
  , answer := p.answer.trim.toLower
  , hint := p.hint
  , date := date
  , index := i }

/-- The per-position loop of RealAIGenerator.GenerateRebusPuzzles: for each
prompt in order, render the image, save it to the image store, and build the
puzzle record; the first failure aborts the loop with that stage's wrapped
error, keeping the images saved so far. -/
def genLoop (env : Env) (date : String) :
    List RebusPrompt → Nat → List (String × Nat × Nat) → List Puzzle →
    List (String × Nat × Nat) × Except String (List Puzzle)
  | [], _, images, acc => (images, .ok acc.reverse)
  | p :: rest, i, images, acc =>
    match env.imageGen i with
    | .error e =>
      (images, .error ("failed to generate image for puzzle " ++ toString i ++ ": " ++ e))
    | .ok bytes =>
      match env.imageSave i with
      | some e =>
        (images, .error ("failed to save image for puzzle " ++ toString i ++ ": " ++ e))
      | none =>
        genLoop env date rest (i + 1) ((date, i, bytes) :: images) (mkPuzzle date i p :: acc)

/-- RealAIGenerator.GenerateRebusPuzzles: fetch the 5 prompts (through the
cache), then render and store an image per position, sequentially in position
order, building the 5 records; any stage failure aborts the whole batch with
a wrapped error. -/
def generateRebusPuzzles (env : Env) (st : SystemState) (date : String) :
    SystemState × Except String (List Puzzle) :=
  match getPromptsFromClaude st.promptCache date env.claudeResult with
  | (cache1, .error e, _) =>
    ({ st with promptCache := cache1 },
      .error ("failed to get prompts from Claude: " ++ e))
  | (cache1, .ok prompts, _) =>
    match genLoop env date prompts 0 st.images [] with
    | (images1, .error e) =>
      ({ st with promptCache := cache1, images := images1 }, .error e)
    | (images1, .ok puzzles) =>
      ({ st with promptCache := cache1, images := images1 }, .ok puzzles)

/-- The generate-then-save sequence shared by the production entry points
(scheduler.go:122-144 and 158-174): run the generator, return its error if it
fails, otherwise write the batch through Store.SavePuzzles (the Go conversion
from []*Puzzle to []Puzzle is the identity here since the generator returns
no nil pointers).  Returns the state after the attempt and the error, if
any. -/
def produceAndSave (env : Env) (st : SystemState) (date : String) :
    SystemState × Option String :=
  match generateRebusPuzzles env st date with
  | (st1, .error e) => (st1, some ("failed to generate puzzles: " ++ e))
  | (st1, .ok puzzles) =>
    match dbSavePuzzles env.saveFault st1.rows date puzzles with
    | (rows1, err) => ({ st1 with rows := rows1 }, err)

/-- Scheduler.generatePuzzlesForToday (scheduler.go:108-145), embedded as
written: it returns with no action when puzzles exist for today, and then
also returns with no action when puzzles do NOT exist for today (the
"Puzzles do not exist for %s, not generating" branch), so the generation and
save steps that follow are unreachable. -/
def generatePuzzlesForToday (env : Env) (st : SystemState) : SystemState :=
  if storeHas st env.today then st
  else if ¬ storeHas st env.today then st
  else (produceAndSave env st env.today).1

/-- Scheduler.checkAndRunIfNeeded (scheduler.go:89-105): skip when today's
puzzles exist; otherwise, when the scheduled time-of-day has already passed,
run generatePuzzlesForToday. -/
def checkAndRunIfNeeded (env : Env) (st : SystemState) : SystemState :=
  if storeHas st env.today then st
  else if env.hour * 60 + env.minute < env.nowMinutes then
    generatePuzzlesForToday env st
  else st

/-- Scheduler.Start (scheduler.go:36-50): when not already running, perform
the immediate catch-up check; the recurring background loop is out of this
model's scope. -/
def schedulerStart (running : Bool) (env : Env) (st : SystemState) : SystemState :=
  if running then st else checkAndRunIfNeeded env st

/-- Scheduler.TriggerTodayGeneration (scheduler.go:179-197): return
(false, nil) when puzzles already exist; otherwise run
generatePuzzlesForToday, then verify puzzles exist, returning (true, nil) on
success and (false, error) otherwise. -/
def triggerTodayGeneration (env : Env) (st : SystemState) :
    SystemState × Bool × Option String :=
  if storeHas st env.today then (st, false, none)
  else
    let st1 := generatePuzzlesForToday env st
    if ¬ storeHas st1 env.today then
      (st1, false, some "failed to generate puzzles for today")
    else
      (st1, true, none)

/-- An environment in which every external service succeeds: Claude returns
five well-formed prompts, every render and upload succeeds, the database is
healthy, and the clock (07:00) is past the configured 06:00 run time. -/
def goodEnv : Env :=
  { today := "2024-01-15"
  , nowMinutes := 420
  , hour := 6
  , minute := 0
  , claudeResult := .ok goodPromptObjs
  , imageGen := fun i => .ok (100 + i)
  , imageSave := fun _ => none
  , saveFault := none }

/-- goodEnv with the image render failing at position 3 (the fourth of five),
the spec's atomicity example. -/
def failAt3Env : Env :=
  { goodEnv with imageGen := fun i => if i = 3 then .error "render exploded" else .ok (100 + i) }

/-- The empty process state: no rows, empty cache, no images. -/
def emptyState : SystemState :=
  { rows := [], promptCache := [], images := [] }

/-- A state whose puzzles table already holds a (one-record) batch for
2024-01-15. -/
def stateWithBatch : SystemState :=
  { rows := [{ id := "2024-01-15-0", imageURL := "/api/images/2024-01-15-0.png"
             , imagePath := "./storage/images/2024-01-15-0.png"
             , answer := "sunshine", hint := "look up"
             , date := "2024-01-15", index := 0 }]
  , promptCache := []
  , images := [("2024-01-15", 0, 100)] }

/-- A prompt-service reply with exactly five objects where the last object is
missing its hint field. -/
def fiveObjsOneMissingHint : List RawPromptObj :=
  [⟨some "a sun rising over a flower", some "sunshine", some "look up"⟩,
   ⟨some "an ice cube cracking", some "break the ice", some "a cold start"⟩,
   ⟨some "a slice of cake", some "piece of cake", some "it is easy"⟩,
   ⟨some "a clock with wings", some "time flies", some "tick tock"⟩,
   ⟨some "a house with a heart", some "home sweet home", none⟩]

/-- Claim C4: DB.SavePuzzles is atomic for a date D: either all supplied
records become visible together (the stored rows become the previous rows
minus D's old rows, followed by the supplied records - so a date that already
has records is safely replaced, delete-then-insert in one transaction) and no
error is returned, or an error is returned and the stored state is unchanged. -/
theorem c4_save_puzzles_atomic (fault : Option SaveFault) (rows : List Puzzle)
    (date : String) (puzzles : List Puzzle) :
    ((dbSavePuzzles fault rows date puzzles).2 = none ∧
      (dbSavePuzzles fault rows date puzzles).1 =
        (rows.filter fun p => p.date != date) ++ puzzles) ∨
    ((dbSavePuzzles fault rows date puzzles).2.isSome = true ∧
      (dbSavePuzzles fault rows date puzzles).1 = rows) := by
  cases fault with
  | none => exact Or.inl ⟨rfl, rfl⟩
  | some f =>
    cases f with
    | beginFault => exact Or.inr ⟨rfl, rfl⟩
    | deleteFault => exact Or.inr ⟨rfl, rfl⟩
    | prepareFault => exact Or.inr ⟨rfl, rfl⟩
    | commitFault => exact Or.inr ⟨rfl, rfl⟩
    | insertFault i =>
      cases h : puzzles[i]? with
      | some p =>
        refine Or.inr ⟨?_, ?_⟩ <;> simp [dbSavePuzzles, h]
      | none =>
        refine Or.inl ⟨?_, ?_⟩ <;> simp [dbSavePuzzles, h]

/-- Claim C10: when the underlying database query errors, the DB layer reports
the error but Store.HasPuzzlesForDate returns false, exactly what it returns
for a date with no rows at all - a storage failure is indistinguishable from
"no batch exists" at this interface. -/
theorem c10_store_has_false_on_error (e : String) (rows : List Puzzle)
    (date : String) :
    storeHasPuzzlesForDate (some e) rows date = false ∧
    dbHasPuzzlesForDate (some e) rows date =
      .error ("failed to check puzzles: " ++ e) ∧
    storeHasPuzzlesForDate (some e) rows date =
      storeHasPuzzlesForDate none [] date :=
  ⟨rfl, rfl, rfl⟩

/-- After a call of GetPromptsFromClaude that returns a prompt sequence, the
cache holds exactly that sequence under the date. -/
theorem getPrompts_ok_lookup (cache : PromptCache) (date : String)
    (svc : Except String (List RawPromptObj)) (ps : List RebusPrompt)
    (h : (getPromptsFromClaude cache date svc).2.1 = .ok ps) :
    cacheLookup (getPromptsFromClaude cache date svc).1 date = some ps := by
  cases hcl : cacheLookup cache date with
  | some qs =>
    simp only [getPromptsFromClaude, hcl, Except.ok.injEq] at h ⊢
    rw [h]
  | none =>
    cases svc with
    | error e => simp [getPromptsFromClaude, hcl] at h
    | ok objs =>
      cases hvp : validatePrompts objs with
      | error e => simp [getPromptsFromClaude, hcl, hvp] at h
      | ok qs =>
        simp only [getPromptsFromClaude, hcl, hvp] at h ⊢
        simp only [Except.ok.injEq] at h
        simp [cacheLookup, h]

/-- A call whose date is already cached is a pure hit: unchanged cache, the
cached sequence, zero external requests. -/
theorem getPrompts_hit (cache : PromptCache) (date : String)
    (svc : Except String (List RawPromptObj)) (ps : List RebusPrompt)
    (h : cacheLookup cache date = some ps) :
    getPromptsFromClaude cache date svc = (cache, .ok ps, 0) := by
  unfold getPromptsFromClaude
  simp [h]

/-- GetPromptsFromClaude issues at most one external request per call. -/
theorem getPrompts_calls_le_one (cache : PromptCache) (date : String)
    (svc : Except String (List RawPromptObj)) :
    (getPromptsFromClaude cache date svc).2.2 ≤ 1 := by
  unfold getPromptsFromClaude
  split
  · simp
  · split
    · simp
    · split <;> simp

/-- Claim C6: two successive GetPromptsFromClaude calls for the same date,
the first of which returns a prompt sequence, issue at most one external
request in total; the second call issues none, returns the structurally
identical sequence and leaves the cache unchanged.  Moreover a cache entry,
once present, is never evicted or mutated by any later call. -/
theorem c6_prompt_cache_correct :
    (∀ (cache : PromptCache) (date : String)
        (svc1 svc2 : Except String (List RawPromptObj)) (ps : List RebusPrompt),
      (getPromptsFromClaude cache date svc1).2.1 = .ok ps →
        getPromptsFromClaude (getPromptsFromClaude cache date svc1).1 date svc2 =
          ((getPromptsFromClaude cache date svc1).1, .ok ps, 0) ∧
        (getPromptsFromClaude cache date svc1).2.2 +
          (getPromptsFromClaude (getPromptsFromClaude cache date svc1).1 date svc2).2.2 ≤ 1) ∧
    (∀ (cache : PromptCache) (d key : String)
        (svc : Except String (List RawPromptObj)) (v : List RebusPrompt),
      cacheLookup cache key = some v →
      cacheLookup (getPromptsFromClaude cache d svc).1 key = some v) := by
  constructor
  · intro cache date svc1 svc2 ps h
    have hlook := getPrompts_ok_lookup cache date svc1 ps h
    have hsecond :
        getPromptsFromClaude (getPromptsFromClaude cache date svc1).1 date svc2 =
          ((getPromptsFromClaude cache date svc1).1, .ok ps, 0) :=
      getPrompts_hit _ _ _ _ hlook
    refine ⟨hsecond, ?_⟩
    have h1 := getPrompts_calls_le_one cache date svc1
    have h2 : (getPromptsFromClaude (getPromptsFromClaude cache date svc1).1
        date svc2).2.2 = 0 := by rw [hsecond]
    omega
  · intro cache d key svc v hv
    cases hcl : cacheLookup cache d with
    | some qs => simpa [getPromptsFromClaude, hcl] using hv
    | none =>
      cases svc with
      | error e => simpa [getPromptsFromClaude, hcl] using hv
      | ok objs =>
        cases hvp : validatePrompts objs with
        | error e => simpa [getPromptsFromClaude, hcl, hvp] using hv
        | ok qs =>
          simp only [getPromptsFromClaude, hcl, hvp]
          by_cases hdk : d = key
          · subst hdk
            rw [hcl] at hv
            exact absurd hv (by simp)
          · simpa [cacheLookup, hdk] using hv

/-- Witness for C6: on an empty cache, a first call backed by a good service
reply followed by a second call whose service would even be down makes the
second call a pure cache hit with the identical sequence and zero requests. -/
theorem c6_witness :
    getPromptsFromClaude
        (getPromptsFromClaude ([] : PromptCache) "2024-01-15" (.ok goodPromptObjs)).1
        "2024-01-15" (.error "service down") =
      ((getPromptsFromClaude ([] : PromptCache) "2024-01-15" (.ok goodPromptObjs)).1,
        .ok (goodPromptObjs.map decodeRebusPrompt), 0) ∧
    (getPromptsFromClaude ([] : PromptCache) "2024-01-15" (.ok goodPromptObjs)).2.2 +
      (getPromptsFromClaude
        (getPromptsFromClaude ([] : PromptCache) "2024-01-15" (.ok goodPromptObjs)).1
        "2024-01-15" (.error "service down")).2.2 ≤ 1 :=
  c6_prompt_cache_correct.1 [] "2024-01-15" (.ok goodPromptObjs) (.error "service down")
    (goodPromptObjs.map decodeRebusPrompt) rfl

/-- Counterexample for C7: a parsed array with exactly 5 elements whose last
element is missing its hint field is accepted by the code with no error,
contradicting the claim that a missing text/answer/hint field causes a
ShapeError. -/
theorem c7_counterexample :
    exceptOk (validatePrompts fiveObjsOneMissingHint) = true ∧
    fiveObjsOneMissingHint.length = 5 ∧
    (fiveObjsOneMissingHint.any fun o => o.hint.isNone) = true :=
  ⟨rfl, rfl, rfl⟩

/-- Claim C7 (amended): GetPromptsFromClaude's validation fails if and only if
the parsed JSON array does not contain exactly 5 elements; elements missing
their text/answer/hint fields are accepted, the absent fields defaulting to
the empty string. -/
theorem c7_shape_error_iff_not_five (objs : List RawPromptObj) :
    exceptOk (validatePrompts objs) = true ↔ objs.length = 5 := by
  simp only [validatePrompts, List.length_map]
  by_cases h : objs.length = 5 <;> simp [h, exceptOk]

/-- A poll attempt seeing "starting" or "processing" sleeps 5 units and
retries with one unit of fuel spent. -/
theorem pollAux_continue_step (r : Nat → PredictionResp) (fuel attempt slept : Nat)
    (hc : isContinueStatus (r attempt).status) :
    pollPredictionAux r (fuel + 1) attempt slept =
      pollPredictionAux r fuel (attempt + 1) (slept + 5) := by
  have h1 : (r attempt).status ≠ "succeeded" := by
    rcases hc with h | h <;> simp [h]
  have h2 : (r attempt).status ≠ "failed" := by
    rcases hc with h | h <;> simp [h]
  have h3 : (r attempt).status ≠ "canceled" := by
    rcases hc with h | h <;> simp [h]
  simp [pollPredictionAux, h1, h2, h3, hc]

/-- Polling through k consecutive continue-statuses spends k units of fuel and
5k units of sleep. -/
theorem pollAux_skip (r : Nat → PredictionResp) :
    ∀ (k fuel attempt slept : Nat), k ≤ fuel →
    (∀ n, n < k → isContinueStatus (r (attempt + n)).status) →
    pollPredictionAux r fuel attempt slept =
      pollPredictionAux r (fuel - k) (attempt + k) (slept + 5 * k) := by
  intro k
  induction k with
  | zero => intro fuel attempt slept _ _; simp
  | succ k ih =>
    intro fuel attempt slept hk hcont
    obtain ⟨fuel', rfl⟩ : ∃ f, fuel = f + 1 := ⟨fuel - 1, by omega⟩
    have hc0 : isContinueStatus (r attempt).status := by
      simpa using hcont 0 (by omega)
    have hstep := pollAux_continue_step r fuel' attempt slept hc0
    have hrest : ∀ n, n < k → isContinueStatus (r (attempt + 1 + n)).status := by
      intro n hn
      have h := hcont (n + 1) (by omega)
      have e : attempt + (n + 1) = attempt + 1 + n := by omega
      rw [e] at h
      exact h
    have e1 : fuel' + 1 - (k + 1) = fuel' - k := by omega
    have e2 : attempt + (k + 1) = attempt + 1 + k := by omega
    have e3 : slept + 5 * (k + 1) = slept + 5 + 5 * k := by omega
    rw [e1, e2, e3]
    exact hstep.trans (ih fuel' (attempt + 1) (slept + 5) (by omega) hrest)

/-- A "succeeded" response settles the poll at the current attempt. -/
theorem pollAux_succeeded (r : Nat → PredictionResp) (fuel attempt slept : Nat)
    (h : (r attempt).status = "succeeded") :
    pollPredictionAux r (fuel + 1) attempt slept =
      (slept,
        match extractImageURL (r attempt).output with
        | .ok url => .ok url
        | .error e =>
          .error ("prediction succeeded but failed to extract image URL: " ++ e)) := by
  simp only [pollPredictionAux, h]
  cases extractImageURL (r attempt).output <;> simp

/-- A "failed" response settles the poll with the service message. -/
theorem pollAux_failed (r : Nat → PredictionResp) (fuel attempt slept : Nat)
    (h : (r attempt).status = "failed") :
    pollPredictionAux r (fuel + 1) attempt slept =
      (slept, .error ("prediction failed: " ++ (r attempt).errMsg.getD "unknown error")) := by
  simp [pollPredictionAux, h]

/-- A "canceled" response settles the poll with the cancellation error. -/
theorem pollAux_canceled (r : Nat → PredictionResp) (fuel attempt slept : Nat)
    (h : (r attempt).status = "canceled") :
    pollPredictionAux r (fuel + 1) attempt slept =
      (slept, .error "prediction was canceled") := by
  simp [pollPredictionAux, h]

/-- Any status other than the three recognized terminal ones and the two
continue ones ends the poll immediately with an unknown-status error. -/
theorem pollAux_unknown (r : Nat → PredictionResp) (fuel attempt slept : Nat)
    (hnc : ¬ isContinueStatus (r attempt).status)
    (h1 : (r attempt).status ≠ "succeeded") (h2 : (r attempt).status ≠ "failed")
    (h3 : (r attempt).status ≠ "canceled") :
    pollPredictionAux r (fuel + 1) attempt slept =
      (slept, .error ("unknown prediction status: " ++ (r attempt).status)) := by
  simp [pollPredictionAux, h1, h2, h3, hnc]

/-- Claim C8 (amended): in pollPrediction exactly the statuses "starting" and
"processing" cause polling to continue, with a fixed 5-unit sleep per retried
attempt, for up to 60 attempts; if all 60 attempts see continue-statuses the
poll fails with the timeout error after 300 sleep units.  The first attempt k
that sees anything else settles the poll after 5k sleep units: "succeeded"
yields the extracted locator (or an extraction error), "failed" and
"canceled" yield their stage errors, and any unrecognized status - including
a literal "submitted" - ends polling immediately with an unknown-status
error rather than continuing. -/
theorem c8_poll_amended :
    (∀ r : Nat → PredictionResp,
      (∀ n, n < 60 → isContinueStatus (r n).status) →
      pollPrediction r = (300, .error "prediction timed out after 60 attempts")) ∧
    (∀ (r : Nat → PredictionResp) (k : Nat), k < 60 →
      (∀ n, n < k → isContinueStatus (r n).status) →
      (((r k).status = "succeeded" →
        pollPrediction r = (5 * k,
          match extractImageURL (r k).output with
          | .ok url => .ok url
          | .error e =>
            .error ("prediction succeeded but failed to extract image URL: " ++ e))) ∧
      ((r k).status = "failed" →
        pollPrediction r = (5 * k,
          .error ("prediction failed: " ++ (r k).errMsg.getD "unknown error"))) ∧
      ((r k).status = "canceled" →
        pollPrediction r = (5 * k, .error "prediction was canceled")) ∧
      (¬ isContinueStatus (r k).status → (r k).status ≠ "succeeded" →
        (r k).status ≠ "failed" → (r k).status ≠ "canceled" →
        pollPrediction r = (5 * k,
          .error ("unknown prediction status: " ++ (r k).status))))) := by
  constructor
  · intro r hcont
    have hskip := pollAux_skip r 60 60 0 0 (by omega)
      (fun n hn => by simpa using hcont n hn)
    simp only [pollPrediction, hskip]
    simp [pollPredictionAux]
  · intro r k hk hcont
    have hskip := pollAux_skip r k 60 0 0 (by omega)
      (fun n hn => by simpa using hcont n hn)
    obtain ⟨f, hf⟩ : ∃ f, 60 - k = f + 1 := ⟨59 - k, by omega⟩
    refine ⟨?_, ?_, ?_, ?_⟩
    · intro hs
      simp only [pollPrediction, hskip, hf]
      have := pollAux_succeeded r f k (0 + 5 * k) (by simpa using hs)
      simpa using this
    · intro hs
      simp only [pollPrediction, hskip, hf]
      have := pollAux_failed r f k (0 + 5 * k) (by simpa using hs)
      simpa using this
    · intro hs
      simp only [pollPrediction, hskip, hf]
      have := pollAux_canceled r f k (0 + 5 * k) (by simpa using hs)
      simpa using this
    · intro hnc h1 h2 h3
      simp only [pollPrediction, hskip, hf]
      have := pollAux_unknown r f k (0 + 5 * k) (by simpa using hnc)
        (by simpa using h1) (by simpa using h2) (by simpa using h3)
      simpa using this

/-- Witness for C8 (amended): an oracle that always answers "processing"
makes pollPrediction run all 60 attempts, sleep 300 units, and time out. -/
theorem c8_witness :
    pollPrediction alwaysProcessing =
      (300, .error "prediction timed out after 60 attempts") :=
  c8_poll_amended.1 alwaysProcessing (fun _ _ => Or.inr rfl)

/-- Counterexample for C8: the non-terminal status "submitted" does not cause
polling to continue - the very first poll ends with an unknown-status error
(zero sleeps), so succeeded/failed/canceled are not the only statuses that
end polling. -/
theorem c8_counterexample :
    pollPrediction alwaysSubmitted =
      (0, .error "unknown prediction status: submitted") ∧
    ¬ isContinueStatus "submitted" ∧
    "submitted" ≠ "succeeded" ∧ "submitted" ≠ "failed" ∧ "submitted" ≠ "canceled" :=
  ⟨rfl, by decide, by decide, by decide, by decide⟩

/-- Claim C9: extractImageURL succeeds on a single non-empty string, on a
string array taking the first element (whatever follows it), and fails with
the output-shape error on JSON null and on an empty array; an absent output
field reports the empty-output error.  The decode order string, then array of
strings, then array of arbitrary values is the order of the definition. -/
theorem c9_extract_image_url :
    (∀ s : String, s ≠ "" → extractImageURL (some (.str s)) = .ok s) ∧
    (∀ (s : String) (rest : List JVal), s ≠ "" →
      extractImageURL (some (.arr (.str s :: rest))) = .ok s) ∧
    extractImageURL (some .null) = .error "could not extract image URL from output" ∧
    extractImageURL (some (.arr [])) =
      .error "could not extract image URL from output" ∧
    extractImageURL none = .error "output is empty" := by
  refine ⟨?_, ?_, rfl, rfl, rfl⟩
  · intro s h
    simp [extractImageURL, unmarshalString, h]
  · intro s rest h
    cases hrest : unmarshalStringList rest <;>
      simp [extractImageURL, unmarshalString, unmarshalStringArray,
        unmarshalStringList, unmarshalAnyArray, hrest, h]

/-- Witness for C9: the spec's own example locators evaluate as claimed. -/
theorem c9_witness :
    extractImageURL (some (.str "https://x/a.png")) = .ok "https://x/a.png" ∧
    extractImageURL (some (.arr [.str "https://x/a.png", .str "https://x/b.png"])) =
      .ok "https://x/a.png" :=
  ⟨c9_extract_image_url.1 "https://x/a.png" (by decide),
   c9_extract_image_url.2.1 "https://x/a.png" [.str "https://x/b.png"] (by decide)⟩

/-- Any error from DB.SavePuzzles leaves the stored rows unchanged (the
transaction rolls back). -/
theorem dbSave_error_unchanged (fault : Option SaveFault) (rows : List Puzzle)
    (date : String) (puzzles : List Puzzle)
    (h : (dbSavePuzzles fault rows date puzzles).2.isSome = true) :
    (dbSavePuzzles fault rows date puzzles).1 = rows := by
  cases fault with
  | none => simp [dbSavePuzzles] at h
  | some f =>
    cases f with
    | beginFault => rfl
    | deleteFault => rfl
    | prepareFault => rfl
    | commitFault => rfl
    | insertFault i =>
      cases hi : puzzles[i]? with
      | some p => simp [dbSavePuzzles, hi]
      | none => simp [dbSavePuzzles, hi] at h

/-- The generator never touches the puzzle rows: it only reads and writes the
prompt cache and the image store. -/
theorem gen_rows_unchanged (env : Env) (st : SystemState) (date : String) :
    (generateRebusPuzzles env st date).1.rows = st.rows := by
  unfold generateRebusPuzzles
  rcases hg : getPromptsFromClaude st.promptCache date env.claudeResult with ⟨c1, r, n⟩
  cases r with
  | error e => rfl
  | ok prompts =>
    dsimp only
    rcases hl : genLoop env date prompts 0 st.images [] with ⟨im1, res⟩
    cases res <;> rfl

/-- Claim C3: if any stage of batch production for a date fails (prompt
fetch, image rendering at any position, image upload, or persistence), the
puzzle rows are unchanged by the attempt; in particular, when no batch
existed for the date before the attempt, the existence check still reports
false afterwards - no partial batch is ever durably visible. -/
theorem c3_failed_production_leaves_no_batch (env : Env) (st : SystemState)
    (date : String)
    (herr : (produceAndSave env st date).2.isSome = true)
    (hno : storeHas st date = false) :
    (produceAndSave env st date).1.rows = st.rows ∧
    storeHas (produceAndSave env st date).1 date = false := by
  have key : (produceAndSave env st date).1.rows = st.rows := by
    rcases hg : generateRebusPuzzles env st date with ⟨st1, r⟩
    have hrows : st1.rows = st.rows := by
      have h0 := gen_rows_unchanged env st date
      rw [hg] at h0
      exact h0
    cases r with
    | error e =>
      have hps : produceAndSave env st date =
          (st1, some ("failed to generate puzzles: " ++ e)) := by
        unfold produceAndSave
        rw [hg]
      rw [hps]
      exact hrows
    | ok puzzles =>
      rcases hs : dbSavePuzzles env.saveFault st1.rows date puzzles with ⟨rows1, err⟩
      have hps : produceAndSave env st date = ({ st1 with rows := rows1 }, err) := by
        unfold produceAndSave
        rw [hg]
        dsimp only
        rw [hs]
      rw [hps] at herr
      have hunch : rows1 = st1.rows := by
        have h0 := dbSave_error_unchanged env.saveFault st1.rows date puzzles
          (by rw [hs]; exact herr)
        rw [hs] at h0
        exact h0
      rw [hps]
      simpa [hunch] using hrows
  refine ⟨key, ?_⟩
  unfold storeHas at hno ⊢
  rw [key]
  exact hno

/-- Witness for C3: with rendering failing at position 3 of 5 on an empty
store (the spec's atomicity scenario), the attempt errors and the existence
check still reports false. -/
theorem c3_witness :
    (produceAndSave failAt3Env emptyState "2024-01-15").1.rows = emptyState.rows ∧
    storeHas (produceAndSave failAt3Env emptyState "2024-01-15").1 "2024-01-15" = false :=
  c3_failed_production_leaves_no_batch failAt3Env emptyState "2024-01-15" rfl rfl

/-- Claim C5: when a batch already exists for today, TriggerTodayGeneration
returns (false, nil) and leaves the state untouched, and so does a second
call made right after it. -/
theorem c5_trigger_twice_idempotent (env : Env) (st : SystemState)
    (h : storeHas st env.today = true) :
    triggerTodayGeneration env st = (st, false, none) ∧
    triggerTodayGeneration env (triggerTodayGeneration env st).1 = (st, false, none) := by
  have h1 : triggerTodayGeneration env st = (st, false, none) := by
    unfold triggerTodayGeneration
    simp [h]
  refine ⟨h1, ?_⟩
  rw [h1]
  exact h1

/-- Witness for C5: a state holding a batch for 2024-01-15 makes both
successive triggers return (false, nil) without mutating the state. -/
theorem c5_witness :
    triggerTodayGeneration goodEnv stateWithBatch = (stateWithBatch, false, none) ∧
    triggerTodayGeneration goodEnv (triggerTodayGeneration goodEnv stateWithBatch).1 =
      (stateWithBatch, false, none) :=
  c5_trigger_twice_idempotent goodEnv stateWithBatch rfl

/-- Claim C1, evaluated at its failing input: on an empty date with every
external service succeeding, TriggerTodayGeneration returns (false, error)
and leaves zero records, because generatePuzzlesForToday refuses to generate
(its second existence check returns when no puzzles exist).  The same
environment's generate-and-save pipeline, run directly, would have produced
the full batch with records at positions 0-4 and no error - the defect is
the inverted check, not the pipeline. -/
theorem c1_trigger_today_on_empty_date :
    storeHas emptyState goodEnv.today = false ∧
    triggerTodayGeneration goodEnv emptyState =
      (emptyState, false, some "failed to generate puzzles for today") ∧
    (triggerTodayGeneration goodEnv emptyState).1.rows.length = 0 ∧
    (produceAndSave goodEnv emptyState goodEnv.today).2 = none ∧
    ((produceAndSave goodEnv emptyState goodEnv.today).1.rows.map
        fun p => (p.id, p.index)) =
      [("2024-01-15-0", 0), ("2024-01-15-1", 1), ("2024-01-15-2", 2),
       ("2024-01-15-3", 3), ("2024-01-15-4", 4)] :=
  ⟨rfl, rfl, rfl, rfl, rfl⟩

/-- Claim C2, evaluated at its failing input: at 07:00 with a 06:00 schedule
and no batch for today, Start's catch-up check runs but produces nothing
(generatePuzzlesForToday's inverted check), so no batch exists afterwards;
the second half of the claim - an existing batch suppresses any catch-up
production - does hold, and the same environment's pipeline would have
succeeded. -/
theorem c2_start_catch_up :
    goodEnv.hour * 60 + goodEnv.minute < goodEnv.nowMinutes ∧
    storeHas emptyState goodEnv.today = false ∧
    schedulerStart false goodEnv emptyState = emptyState ∧
    storeHas (schedulerStart false goodEnv emptyState) goodEnv.today = false ∧
    schedulerStart false goodEnv stateWithBatch = stateWithBatch ∧
    (produceAndSave goodEnv emptyState goodEnv.today).2 = none :=
  ⟨by decide, rfl, rfl, rfl, rfl, rfl⟩

end PlayRebus
